import Mathlib

/-!
Verification development for the two-entity physics-collision job pipeline
(backend/app.py and backend/physics_pipeline.py).

The Python code is shallowly embedded: pure data (jobs, stages, property
bags) becomes Lean structures, JSON values become a small inductive type,
and every interaction with the outside world (filesystem, Gemini REST
call, background-removal, TripoSR, Blender) is captured by an explicit
environment record describing the outcome of each external call.  Every
number the code manipulates is a short decimal literal (progress
percents, the default property constants), so Python floats are modelled
exactly by a decimal mantissa/exponent pair and progress by integers; no
claim in scope depends on IEEE rounding or on float arithmetic.
-/

namespace PhysicsApp

instance {ε α : Type} [DecidableEq ε] [DecidableEq α] : DecidableEq (Except ε α) :=
  fun a b =>
    match a, b with
    | .ok x, .ok y =>
        match decEq x y with
        | isTrue h => isTrue (by rw [h])
        | isFalse h => isFalse (fun hc => h (by cases hc; rfl))
    | .ok _, .error _ => isFalse (fun hc => Except.noConfusion hc)
    | .error _, .ok _ => isFalse (fun hc => Except.noConfusion hc)
    | .error x, .error y =>
        match decEq x y with
        | isTrue h => isTrue (by rw [h])
        | isFalse h => isFalse (fun hc => h (by cases hc; rfl))

/-- A Python float written as a decimal literal: `mant / 10 ^ exp`.  The
pipeline never does arithmetic on these values (they are stored, defaulted
and passed to subprocesses verbatim), so the non-canonical representation
is harmless: every comparison made by a claim compares values of the same
provenance. -/
structure PyFloat where
  mant : Int
  exp : ℕ
deriving DecidableEq

/-- A scalar JSON value. -/
inductive JScalar where
  | null
  | bool (b : Bool)
  | num (q : PyFloat)
  | str (s : String)
deriving DecidableEq

/-- A JSON value with at most one level of nesting: every behaviour the
claims exercise (property dicts, analyzer responses) involves objects and
arrays of scalars only. -/
inductive JValue where
  | scalar (v : JScalar)
  | arr (elems : List JScalar)
  | obj (fields : List (String × JScalar))
deriving DecidableEq

/-- Splits a character list at every dot, used to model Python float
parsing of strings. -/
def splitOnDot : List Char → List (List Char)
  | [] => [[]]
  | c :: rest =>
      let r := splitOnDot rest
      if c = '.' then [] :: r
      else
        match r with
        | [] => [[c]]
        | h :: t => (c :: h) :: t

/-- Numeric value of a digit string. -/
def natOfDigits (cs : List Char) : ℕ :=
  cs.foldl (fun a c => a * 10 + (c.toNat - 48)) 0

/-- Models Python `float(s)` on a string: optional sign, decimal digits
with at most one dot.  (Exponents, infinities and underscores are outside
the behaviours exercised here.)  Returns `none` where Python raises
`ValueError`. -/
def strFloat (s : String) : Option PyFloat :=
  let cs := s.toList
  let signBody : Int × List Char :=
    match cs with
    | '-' :: rest => (-1, rest)
    | '+' :: rest => (1, rest)
    | _ => (1, cs)
  let sign := signBody.1
  let body := signBody.2
  match splitOnDot body with
  | [d] =>
      if d ≠ [] ∧ d.all Char.isDigit then some ⟨sign * natOfDigits d, 0⟩ else none
  | [d, f] =>
      if (d ≠ [] ∨ f ≠ []) ∧ d.all Char.isDigit ∧ f.all Char.isDigit then
        some ⟨sign * (natOfDigits d * 10 ^ f.length + natOfDigits f), f.length⟩
      else none
  | _ => none

/-- Models Python `float(v)` on a scalar: numbers pass through, booleans
coerce, numeric strings parse, everything else raises (`none`). -/
def pyFloat : JScalar → Option PyFloat
  | .num q => some q
  | .bool b => some (if b then ⟨1, 0⟩ else ⟨0, 0⟩)
  | .str s => strFloat s
  | .null => none

/-- Models Python `str(v)` on a scalar (rendering of non-strings is
approximate; every claim only applies it to strings). -/
def pyStr : JScalar → String
  | .str s => s
  | .num q => toString q.mant ++ "e-" ++ toString q.exp
  | .bool b => if b then "True" else "False"
  | .null => "None"

/-- Python truthiness of a JSON value (`if value:`). -/
def truthy : JValue → Bool
  | .scalar .null => false
  | .scalar (.bool b) => b
  | .scalar (.num q) => !(q.mant == 0)
  | .scalar (.str s) => !(s == "")
  | .arr xs => !xs.isEmpty
  | .obj kv => !kv.isEmpty

/-- physics_pipeline.py lines 24-29: the `ObjectProperties` dataclass.
Fields hold the raw values given to the constructor (the dataclass does
not coerce them). -/
structure ObjectProperties where
  mass : JScalar
  bounciness : JScalar
  friction : JScalar
  facing : JScalar
deriving DecidableEq

/-- One error kind per Python exception family that matters to the
orchestrator: `PipelineError` (caught by the handlers in app.py) versus
every other exception (which those handlers do not catch). -/
inductive PyError where
  | pipelineError (msg : String)
  | otherError (msg : String)
deriving DecidableEq

/-- The decimal literal 1.0. -/
def pyOne : PyFloat := ⟨1, 0⟩

/-- The decimal literal 0.5. -/
def pyHalf : PyFloat := ⟨5, 1⟩

/-- physics_pipeline.py line 185: the fallback dict returned when the
Gemini call fails in any way. -/
def defaultRawProps : List (String × JScalar) :=
  [("mass", .num pyOne), ("bounciness", .num pyHalf), ("friction", .num pyHalf),
   ("facing", .str "front")]

/-- The documented default property bag: mass 1.0, bounciness 0.5,
friction 0.5, facing "front". -/
def defaultBag : ObjectProperties :=
  ⟨.num pyOne, .num pyHalf, .num pyHalf, .str "front"⟩

/-- physics_pipeline.py lines 31-38: `ObjectProperties.from_raw`.
`data.get(key, default)` then `float(...)`/`str(...)`.  A non-mapping
argument raises `AttributeError` at `.get`; a value `float` rejects
raises `ValueError`.  Both are non-`PipelineError` exceptions. -/
def ObjectProperties.from_raw (v : JValue) : Except String ObjectProperties :=
  match v with
  | .obj fields =>
      let fget : String → JScalar → JScalar := fun k d => (fields.lookup k).getD d
      match pyFloat (fget "mass" (.num pyOne)), pyFloat (fget "bounciness" (.num pyHalf)),
            pyFloat (fget "friction" (.num pyHalf)) with
      | some m, some b, some f =>
          .ok ⟨.num m, .num b, .num f, .str (pyStr (fget "facing" (.str "front")))⟩
      | _, _, _ => .error "ValueError: could not convert value to float"
  | _ => .error "AttributeError: response has no attribute get"

/-- Outcome of one Gemini REST interaction: either some exception inside
the guarded block of `_get_physics_gemini_rest` (transport error, HTTP
error, timeout, missing candidates, `json.loads` failure), or a
successfully parsed JSON value. -/
inductive GeminiOutcome where
  | failure (msg : String)
  | parsed (v : JValue)

/-- physics_pipeline.py lines 139-185: `_get_physics_gemini_rest`.  Every
exception raised inside the request/parse block is swallowed and the
fallback dict is returned; a parsed response is returned verbatim. -/
def getPhysicsGeminiRest : GeminiOutcome → JValue
  | .failure _ => .obj defaultRawProps
  | .parsed v => v

/-- External world as seen by the analysis phase: which files exist, and
the Gemini outcome for each entity. -/
structure AnalysisEnv where
  fsExists : String → Bool
  outA : GeminiOutcome
  outB : GeminiOutcome

/-- Body of the loop in physics_pipeline.py lines 74-83 for one entity:
missing image is a fatal `PipelineError`; otherwise the Gemini result is
fed to `from_raw`, whose failures are ordinary exceptions. -/
def analyzeOne (env : AnalysisEnv) (key : String) (path : String)
    (out : GeminiOutcome) : Except PyError ObjectProperties :=
  if env.fsExists path then
    match ObjectProperties.from_raw (getPhysicsGeminiRest out) with
    | .ok p => .ok p
    | .error e => .error (.otherError e)
  else .error (.pipelineError (key ++ " image not found at " ++ path))

/-- physics_pipeline.py lines 65-86: `analyze_objects` over the two-entry
dict `{"objectA": ..., "objectB": ...}` (insertion order, objectA first).
The app route passes no progress callback, so `_emit` does nothing. -/
def analyzeObjects (env : AnalysisEnv) (pathA pathB : String) :
    Except PyError (ObjectProperties × ObjectProperties) :=
  match analyzeOne env "objectA" pathA env.outA with
  | .error e => .error e
  | .ok a =>
      match analyzeOne env "objectB" pathB env.outB with
      | .error e => .error e
      | .ok b => .ok (a, b)

/-- app.py lines 18-19: a stage record. -/
structure StageState where
  status : String
  message : Option String
deriving DecidableEq

/-- app.py `stage(...)` helper. -/
def stage (status : String) (message : Option String) : StageState :=
  ⟨status, message⟩

/-- `stage()` with its Python defaults. -/
def pendingStage : StageState := stage "pending" none

/-- The four fixed stage slots of a job. -/
structure Stages where
  upload : StageState
  analysis : StageState
  generation : StageState
  render : StageState
deriving DecidableEq

/-- app.py lines 82-83: per-entity file record. -/
structure EntityFiles where
  original : String
  clean : Option String
  model : Option String
deriving DecidableEq

/-- app.py lines 70-88: the job dict. -/
structure Job where
  id : String
  dir : String
  status : String
  progress : Int
  stages : Stages
  filesA : EntityFiles
  filesB : EntityFiles
  properties : List (String × JValue)
  video_path : Option String
  error : Option String
deriving DecidableEq

/-- app.py lines 53-93: `create_job` (file saving abstracted to the two
upload paths). -/
def createJob (jid dir pathA pathB : String) : Job :=
  { id := jid, dir := dir, status := "uploaded", progress := 10,
    stages := { upload := stage "completed" (some "Images uploaded"),
                analysis := pendingStage, generation := pendingStage,
                render := pendingStage },
    filesA := ⟨pathA, none, none⟩, filesB := ⟨pathB, none, none⟩,
    properties := [("objectA", .scalar .null), ("objectB", .scalar .null)],
    video_path := none, error := none }

/-- app.py lines 96-107: `serialize_job` drops `dir` and `files` and adds
`hasVideo`. -/
structure SerializedJob where
  id : String
  status : String
  progress : Int
  stages : Stages
  properties : List (String × JValue)
  video_path : Option String
  error : Option String
  hasVideo : Bool
deriving DecidableEq

def serializeJob (j : Job) : SerializedJob :=
  ⟨j.id, j.status, j.progress, j.stages, j.properties, j.video_path, j.error,
   j.video_path.isSome⟩

/-- Python `vars(ObjectProperties)` as used in app.py line 150: the
field dict in declaration order. -/
def varsDict (p : ObjectProperties) : JValue :=
  .obj [("mass", p.mass), ("bounciness", p.bounciness),
        ("friction", p.friction), ("facing", p.facing)]

/-- How an HTTP handler body terminates: normal return, a `PipelineError`
caught by its handler, or an exception that escapes the handler. -/
inductive AOutcome where
  | ok
  | handledError (msg : String)
  | escaped (msg : String)
deriving DecidableEq

structure AnalyzeResult where
  job : Job
  outcome : AOutcome
  stageLog : List (String × String)

/-- app.py lines 126-162: the `analyze` route after the job lookup.  It
unconditionally sets `status=analyzing` and the analysis stage running,
runs `analyze_objects`, and catches only `PipelineError`; any other
exception leaves the job with the pre-try writes.  `stageLog` records
each assignment to a stage slot as (stage name, new status). -/
def analyzeRoute (env : AnalysisEnv) (j : Job) : AnalyzeResult :=
  let j1 : Job :=
    { j with status := "analyzing",
             stages := { j.stages with
               analysis := stage "running" (some "Analyzing physics properties") } }
  match analyzeObjects env j.filesA.original j.filesB.original with
  | .ok (a, b) =>
      { job := { j1 with
          properties := [("objectA", varsDict a), ("objectB", varsDict b)],
          status := "analysis_complete", progress := 50,
          stages := { j1.stages with
            analysis := stage "completed" (some "AI properties detected") } },
        outcome := .ok,
        stageLog := [("analysis", "running"), ("analysis", "completed")] }
  | .error (.pipelineError m) =>
      { job := { j1 with
          status := "error", error := some m,
          stages := { j1.stages with analysis := stage "failed" (some m) } },
        outcome := .handledError m,
        stageLog := [("analysis", "running"), ("analysis", "failed")] }
  | .error (.otherError m) =>
      { job := j1, outcome := .escaped m,
        stageLog := [("analysis", "running")] }

/-- app.py lines 165-180: the `properties` route overwrites the whole
properties mapping. -/
def updateProperties (j : Job) (props : List (String × JValue)) : Job :=
  { j with properties := props }

/-- The two entity keys iterated by `generate_collision`. -/
inductive ObjKey where
  | objectA
  | objectB
deriving DecidableEq

def keyName : ObjKey → String
  | .objectA => "objectA"
  | .objectB => "objectB"

/-- Models `ObjectProperties(**value)` from app.py line 207: succeeds iff
`value` is a mapping whose keys are exactly the four dataclass fields
(values are taken verbatim, the constructor does not coerce); otherwise
Python raises a `TypeError`. -/
def mkProps (v : JValue) : Except String ObjectProperties :=
  match v with
  | .obj kv =>
      if kv.length == 4 &&
          (["mass", "bounciness", "friction", "facing"].all
            (fun k => (kv.lookup k).isSome)) then
        .ok ⟨(kv.lookup "mass").getD .null, (kv.lookup "bounciness").getD .null,
             (kv.lookup "friction").getD .null, (kv.lookup "facing").getD .null⟩
      else .error "TypeError: keyword arguments do not match ObjectProperties fields"
  | _ => .error "TypeError: argument after ** must be a mapping"

/-- app.py lines 206-210: the dict comprehension building `props`: each
truthy entry is run through the `ObjectProperties` constructor in order;
the first `TypeError` aborts the whole comprehension. -/
def buildProps : List (String × JValue) →
    Except String (List (String × ObjectProperties))
  | [] => .ok []
  | (k, v) :: rest =>
      if truthy v then
        match mkProps v with
        | .error e => .error e
        | .ok p =>
            match buildProps rest with
            | .error e => .error e
            | .ok l => .ok ((k, p) :: l)
      else buildProps rest

/-- External world as seen by one generation run: which original images
exist and how each external tool call turns out. -/
structure GenEnv where
  fsExists : String → Bool
  cleanOk : ObjKey → Bool
  cleanErr : ObjKey → String
  meshProcOk : ObjKey → Bool
  meshErr : ObjKey → String
  meshArtifact : ObjKey → Bool
  blenderOk : Bool
  blenderErr : String
  videoPresent : Bool

/-- A progress event as delivered to the `progress` callback
(app.py lines 190-194): stage key, message, percent. -/
structure PEvent where
  stageKey : String
  message : String
  percent : Int
deriving DecidableEq

/-- An invocation of one of the three external tools. -/
inductive ToolCall where
  | clean (key : String)
  | meshGen (key : String)
  | blender
deriving DecidableEq

/-- Result of the per-entity portion of `generate_collision`. -/
structure EntityStep where
  events : List PEvent
  tools : List ToolCall
  files : EntityFiles
  result : Except PyError String

/-- physics_pipeline.py lines 100-118: one iteration of the entity loop
in `generate_collision`.  `idx` is the loop index (0 for objectA, 1 for
objectB); the emitted percents are `55 + idx*5` (cleanup) and
`65 + idx*10` (mesh generation).  A missing original image, a cleanup
failure, a mesh-tool process failure, and a missing mesh artifact after a
successful tool run all raise `PipelineError`. -/
def processEntity (env : GenEnv) (dir : String) (idx : Int) (key : ObjKey)
    (f : EntityFiles) : EntityStep :=
  let kn := keyName key
  if env.fsExists f.original then
    let cleanPath := dir ++ "/" ++ kn ++ "/clean.png"
    let ev1 : PEvent := ⟨"generation", "Cleaning " ++ kn, 55 + idx * 5⟩
    if env.cleanOk key then
      let f1 : EntityFiles := { f with clean := some cleanPath }
      let ev2 : PEvent := ⟨"generation", "Generating mesh for " ++ kn, 65 + idx * 10⟩
      if env.meshProcOk key then
        let meshPath := dir ++ "/" ++ kn ++ "/mesh/0/mesh.obj"
        if env.meshArtifact key then
          { events := [ev1, ev2], tools := [.clean kn, .meshGen kn],
            files := { f1 with model := some meshPath }, result := .ok meshPath }
        else
          { events := [ev1, ev2], tools := [.clean kn, .meshGen kn], files := f1,
            result := .error (.pipelineError ("Mesh not found at " ++ meshPath)) }
      else
        { events := [ev1, ev2], tools := [.clean kn, .meshGen kn], files := f1,
          result := .error (.pipelineError ("TripoSR failed: " ++ env.meshErr key)) }
    else
      { events := [ev1], tools := [.clean kn], files := f,
        result := .error (.pipelineError
          ("Background removal failed for " ++ f.original ++ ": " ++ env.cleanErr key)) }
  else
    { events := [], tools := [], files := f,
      result := .error (.pipelineError (kn ++ " original image missing at " ++ f.original)) }

/-- Result of a whole `generate_collision` call. -/
structure GenOut where
  events : List PEvent
  tools : List ToolCall
  filesA : EntityFiles
  filesB : EntityFiles
  result : Except PyError String

/-- physics_pipeline.py lines 88-124: `generate_collision`.  Entity A is
processed, then entity B, then the render emit at 90, the Blender
invocation (whose argument list indexes `properties["objectA"]` and
`properties["objectB"]`, raising `KeyError` when absent), the output
check, and the final emit at 100. -/
def generateCollision (env : GenEnv) (dir : String) (fA fB : EntityFiles)
    (props : List (String × ObjectProperties)) : GenOut :=
  let sA := processEntity env dir 0 .objectA fA
  match sA.result with
  | .error e => ⟨sA.events, sA.tools, sA.files, fB, .error e⟩
  | .ok _ =>
      let sB := processEntity env dir 1 .objectB fB
      match sB.result with
      | .error e =>
          ⟨sA.events ++ sB.events, sA.tools ++ sB.tools, sA.files, sB.files, .error e⟩
      | .ok _ =>
          let ev3 : PEvent := ⟨"render", "Running Blender simulation", 90⟩
          let videoPath := dir ++ "/output_collision.mp4"
          match props.lookup "objectA", props.lookup "objectB" with
          | some _, some _ =>
              if env.blenderOk then
                if env.videoPresent then
                  let ev4 : PEvent := ⟨"render", "Render complete", 100⟩
                  ⟨sA.events ++ sB.events ++ [ev3, ev4],
                   sA.tools ++ sB.tools ++ [.blender],
                   sA.files, sB.files, .ok videoPath⟩
                else
                  ⟨sA.events ++ sB.events ++ [ev3],
                   sA.tools ++ sB.tools ++ [.blender],
                   sA.files, sB.files,
                   .error (.pipelineError
                     ("Expected render output at " ++ videoPath ++ " but file not found."))⟩
              else
                ⟨sA.events ++ sB.events ++ [ev3],
                 sA.tools ++ sB.tools ++ [.blender],
                 sA.files, sB.files,
                 .error (.pipelineError ("Blender render failed: " ++ env.blenderErr))⟩
          | _, _ =>
              ⟨sA.events ++ sB.events ++ [ev3], sA.tools ++ sB.tools,
               sA.files, sB.files,
               .error (.otherError "KeyError: objectA or objectB missing from properties")⟩

/-- Stage updates performed by the `progress` callback in app.py lines
190-194: set the named stage (when it is one of the four slots) to
running with the callback message. -/
def setRunning (st : Stages) (key : String) (msg : String) : Stages :=
  if key == "upload" then { st with upload := stage "running" (some msg) }
  else if key == "analysis" then { st with analysis := stage "running" (some msg) }
  else if key == "generation" then { st with generation := stage "running" (some msg) }
  else if key == "render" then { st with render := stage "running" (some msg) }
  else st

/-- One callback delivery: `job["progress"] = percent` plus the stage
update. -/
def applyEvent (j : Job) (e : PEvent) : Job :=
  { j with progress := e.percent, stages := setRunning j.stages e.stageKey e.message }

/-- Result of one background task run. -/
inductive BgOutcome where
  | completed
  | handledError (msg : String)
  | escaped (msg : String)
deriving DecidableEq

structure BgOut where
  job : Job
  outcome : BgOutcome
  tools : List ToolCall
  stageLog : List (String × String)
  progressWrites : List Int

/-- app.py lines 184-232: the `background` closure run by the executor.
Before its try block it sets `status=generating`, generation running and
render pending.  Inside the try it builds `props` (any `TypeError` there
escapes, since only `PipelineError` is caught), fails fast when fewer or
more than two entries survived, and otherwise runs `generate_collision`,
whose progress callbacks mutate the job as they arrive.  On success the
job is completed; on `PipelineError` it is moved to `status=error` with
both generation and render marked failed.  `stageLog` records every
assignment to a stage slot as (stage name, new status);
`progressWrites` records every write to `job["progress"]`. -/
def bgRun (env : GenEnv) (j : Job) : BgOut :=
  let j1 : Job :=
    { j with status := "generating",
             stages := { j.stages with
               generation := stage "running" (some "Generating 3D meshes"),
               render := pendingStage } }
  let log0 : List (String × String) := [("generation", "running"), ("render", "pending")]
  match buildProps j.properties with
  | .error e => ⟨j1, .escaped e, [], log0, []⟩
  | .ok props =>
      if props.length == 2 then
        let g := generateCollision env j.dir j1.filesA j1.filesB props
        let j2 := g.events.foldl applyEvent
          { j1 with filesA := g.filesA, filesB := g.filesB }
        let evLog := g.events.map (fun e => (e.stageKey, "running"))
        match g.result with
        | .ok vp =>
            ⟨{ j2 with
                video_path := some vp, status := "complete", progress := 100,
                stages := { j2.stages with
                  generation := stage "completed" (some "3D meshes ready"),
                  render := stage "completed" (some "Render finished") } },
             .completed, g.tools,
             log0 ++ evLog ++ [("generation", "completed"), ("render", "completed")],
             g.events.map (fun e => e.percent) ++ [100]⟩
        | .error (.pipelineError m) =>
            ⟨{ j2 with
                status := "error", error := some m,
                stages := { j2.stages with
                  generation := stage "failed" (some m),
                  render := stage "failed" (some m) } },
             .handledError m, g.tools,
             log0 ++ evLog ++ [("generation", "failed"), ("render", "failed")],
             g.events.map (fun e => e.percent)⟩
        | .error (.otherError m) =>
            ⟨j2, .escaped m, g.tools, log0 ++ evLog,
             g.events.map (fun e => e.percent)⟩
      else
        let m := "Physics properties missing for one or both objects."
        ⟨{ j1 with
            status := "error", error := some m,
            stages := { j1.stages with
              generation := stage "failed" (some m),
              render := stage "failed" (some m) } },
         .handledError m, [],
         log0 ++ [("generation", "failed"), ("render", "failed")], []⟩

structure GenRouteOut where
  job : Job
  response : SerializedJob
  message : Option String
  scheduled : Bool
deriving DecidableEq

/-- app.py lines 237-253: the `generate` route after the job lookup.  An
in-flight status (generating/rendering) returns the serialized job
without submitting anything; otherwise a background task is submitted
(the job itself is unchanged until the task starts). -/
def generateRoute (j : Job) : GenRouteOut :=
  if j.status == "generating" || j.status == "rendering" then
    ⟨j, serializeJob j, none, false⟩
  else
    ⟨j, serializeJob j, some "Generation started", true⟩

/-- All writes to `job["progress"]` across the standard flow driven by
the orchestrator: job creation (10), the analysis phase (50 on success,
nothing otherwise), every generation-phase progress callback, and
completion (100). -/
def flowProgressWrites (aenv : AnalysisEnv) (genv : GenEnv)
    (jid dir pA pB : String) : List Int :=
  let j0 := createJob jid dir pA pB
  let ar := analyzeRoute aenv j0
  let analysisWrites : List Int := match ar.outcome with
    | .ok => [50]
    | _ => []
  [10] ++ analysisWrites ++ (bgRun genv ar.job).progressWrites

/-! ### The background executor

app.py line 33 creates `ThreadPoolExecutor(max_workers=1)`.  The
executor is modelled by the contract of Python's thread-pool executor: a
FIFO work queue from which idle workers (at most `max_workers` of them)
take the oldest task; a task that finishes (normally or by raising) frees
its worker.  Task ids are assigned in submission order from a counter. -/

/-- app.py line 33: the worker bound passed to the thread pool. -/
def appMaxWorkers : ℕ := 1

structure ExecState where
  nextId : ℕ
  queue : List ℕ
  running : List ℕ
  finished : List ℕ
deriving DecidableEq

def execInit : ExecState := ⟨0, [], [], []⟩

/-- One executor transition: submit a task (fire-and-forget), start the
oldest queued task on an idle worker slot, or finish a running task. -/
inductive ExecStep (mw : ℕ) : ExecState → ExecState → Prop
  | submit (s : ExecState) :
      ExecStep mw s ⟨s.nextId + 1, s.queue ++ [s.nextId], s.running, s.finished⟩
  | taskStart (s : ExecState) (t : ℕ) (rest : List ℕ) :
      s.running.length < mw → s.queue = t :: rest →
      ExecStep mw s ⟨s.nextId, rest, s.running ++ [t], s.finished⟩
  | taskFinish (s : ExecState) (t : ℕ) (r1 r2 : List ℕ) :
      s.running = r1 ++ t :: r2 →
      ExecStep mw s ⟨s.nextId, s.queue, r1 ++ r2, s.finished ++ [t]⟩

def ExecReach (mw : ℕ) : ExecState → ExecState → Prop :=
  Relation.ReflTransGen (ExecStep mw)

/-! ### Concrete fixtures for witnesses and counterexamples -/

/-- An environment in which every external generation step succeeds. -/
def fullGenEnv : GenEnv :=
  { fsExists := fun _ => true, cleanOk := fun _ => true, cleanErr := fun _ => "",
    meshProcOk := fun _ => true, meshErr := fun _ => "",
    meshArtifact := fun _ => true, blenderOk := true, blenderErr := "",
    videoPresent := true }

/-- Like `fullGenEnv`, but the mesh tool reports success while leaving no
artifact behind. -/
def meshAbsentEnv : GenEnv := { fullGenEnv with meshArtifact := fun _ => false }

/-- Analysis environment: both images present, both Gemini calls fail
inside the guarded block (so the fallback defaults apply). -/
def aenvBothFail : AnalysisEnv :=
  { fsExists := fun _ => true, outA := .failure "timeout", outB := .failure "timeout" }

/-- Analysis environment: objectA's image exists and its response parses
to a JSON object whose mass is a non-numeric string; objectB's image is
missing. -/
def aenvBadMass : AnalysisEnv :=
  { fsExists := fun p => p == "a.png",
    outA := .parsed (.obj [("mass", .str "heavy")]),
    outB := .failure "unused" }

/-- A freshly created job. -/
def baseJob : Job := createJob "job-1" "jobs/job-1" "a.png" "b.png"

/-- A valid serialized property bag as the analysis phase would store it. -/
def goodBagValue : JValue := varsDict defaultBag

/-- A job that has been through a successful analysis. -/
def analyzedJob : Job :=
  { baseJob with
      status := "analysis_complete", progress := 50,
      properties := [("objectA", goodBagValue), ("objectB", goodBagValue)],
      stages := { baseJob.stages with
        analysis := stage "completed" (some "AI properties detected") } }

/-- A job whose properties map was overwritten by a client with two
truthy dicts that are not valid property bags. -/
def badPropsJob : Job :=
  { analyzedJob with
      properties := [("objectA", .obj [("mass", .num pyOne)]),
                     ("objectB", .obj [("mass", .num ⟨2, 0⟩)])] }

/-- A job with one truthy malformed entry and one null entry. -/
def halfBadJob : Job :=
  { analyzedJob with
      properties := [("objectA", .obj [("mass", .num pyOne)]),
                     ("objectB", .scalar .null)] }

/-- A job with exactly one populated (and well-formed) property entry. -/
def oneBagJob : Job :=
  { analyzedJob with
      properties := [("objectA", goodBagValue), ("objectB", .scalar .null)] }

/-- A job in the terminal success state. -/
def completeJob : Job :=
  { analyzedJob with status := "complete", progress := 100,
                     video_path := some "jobs/job-1/output_collision.mp4" }

/-- A job currently being generated. -/
def generatingJob : Job := { analyzedJob with status := "generating" }

/-! ### Helper predicates and lemmas -/

def exceptOk {ε α : Type} : Except ε α → Bool
  | .ok _ => true
  | .error _ => false

/-- Adjacent-pair check over an integer list. -/
def chainOk (f : Int → Int → Bool) : List Int → Bool
  | [] => true
  | [_] => true
  | a :: b :: rest => f a b && chainOk f (b :: rest)

/-- Non-decreasing adjacent step. -/
def nonDecStep (a b : Int) : Bool := decide (a ≤ b)

/-- Non-decreasing, except for the single drop from 65 (entity A's mesh
step) to 60 (entity B's cleanup step). -/
def meshToCleanStep (a b : Int) : Bool := decide (a ≤ b) || (a == 65 && b == 60)

/-- The successive statuses written to one stage slot, extracted from a
stage-write log. -/
def stageStatusLog (log : List (String × String)) (name : String) : List String :=
  log.filterMap (fun w => if w.1 == name then some w.2 else none)

/-- True when no terminal status (completed/failed) is written before the
first running status. -/
def runningFirst : List String → Bool
  | [] => true
  | s :: rest =>
      if s == "running" then true
      else if s == "completed" || s == "failed" then false
      else runningFirst rest

theorem foldl_applyEvent_video (l : List PEvent) (j : Job) :
    (l.foldl applyEvent j).video_path = j.video_path := by
  induction l generalizing j with
  | nil => rfl
  | cons e rest ih => simpa using ih (applyEvent j e)

theorem foldl_applyEvent_status (l : List PEvent) (j : Job) :
    (l.foldl applyEvent j).status = j.status := by
  induction l generalizing j with
  | nil => rfl
  | cons e rest ih => simpa using ih (applyEvent j e)

theorem foldl_applyEvent_error (l : List PEvent) (j : Job) :
    (l.foldl applyEvent j).error = j.error := by
  induction l generalizing j with
  | nil => rfl
  | cons e rest ih => simpa using ih (applyEvent j e)

/-- The per-entity step of `generate_collision`, when it succeeds,
emitted exactly its two progress events and ran cleanup and mesh
generation. -/
theorem processEntity_ok_shape (env : GenEnv) (dir : String) (idx : Int)
    (key : ObjKey) (f : EntityFiles) (mp : String)
    (h : (processEntity env dir idx key f).result = .ok mp) :
    (processEntity env dir idx key f).events =
      [⟨"generation", "Cleaning " ++ keyName key, 55 + idx * 5⟩,
       ⟨"generation", "Generating mesh for " ++ keyName key, 65 + idx * 10⟩] ∧
    (processEntity env dir idx key f).tools =
      [.clean (keyName key), .meshGen (keyName key)] := by
  unfold processEntity at h ⊢
  cases h1 : env.fsExists f.original <;> simp [h1] at h ⊢
  cases h2 : env.cleanOk key <;> simp [h2] at h ⊢
  cases h3 : env.meshProcOk key <;> simp [h3] at h ⊢
  cases h4 : env.meshArtifact key <;> simp [h4] at h ⊢

/-- The possible progress-percent prefixes emitted by one entity step. -/
theorem processEntity_percent_cases (env : GenEnv) (dir : String) (idx : Int)
    (key : ObjKey) (f : EntityFiles) :
    (processEntity env dir idx key f).events.map (fun e => e.percent) ∈
      [([] : List Int), [55 + idx * 5], [55 + idx * 5, 65 + idx * 10]] := by
  unfold processEntity
  cases h1 : env.fsExists f.original <;> simp [h1]
  cases h2 : env.cleanOk key <;> simp [h2]
  cases h3 : env.meshProcOk key <;> simp [h3]
  cases h4 : env.meshArtifact key <;> simp [h4]

/-- The event sequence of a fully successful `generate_collision` run. -/
def fullRunEvents : List PEvent :=
  [⟨"generation", "Cleaning objectA", 55⟩,
   ⟨"generation", "Generating mesh for objectA", 65⟩,
   ⟨"generation", "Cleaning objectB", 60⟩,
   ⟨"generation", "Generating mesh for objectB", 75⟩,
   ⟨"render", "Running Blender simulation", 90⟩,
   ⟨"render", "Render complete", 100⟩]

/-- A successful `generate_collision` run emits exactly the six progress
events, in order: 55, 65, 60, 75, 90, 100. -/
theorem generateCollision_ok_events (env : GenEnv) (dir : String)
    (fA fB : EntityFiles) (props : List (String × ObjectProperties)) (vp : String)
    (h : (generateCollision env dir fA fB props).result = .ok vp) :
    (generateCollision env dir fA fB props).events = fullRunEvents := by
  simp only [generateCollision] at h ⊢
  cases hA : (processEntity env dir 0 .objectA fA).result with
  | error e => simp [hA] at h
  | ok mpA =>
    obtain ⟨heA, -⟩ := processEntity_ok_shape env dir 0 .objectA fA mpA hA
    simp only [hA] at h ⊢
    cases hB : (processEntity env dir 1 .objectB fB).result with
    | error e => simp [hB] at h
    | ok mpB =>
      obtain ⟨heB, -⟩ := processEntity_ok_shape env dir 1 .objectB fB mpB hB
      simp only [hB] at h ⊢
      cases hpa : props.lookup "objectA" <;> simp only [hpa] at h ⊢
      case none => simp at h
      case some =>
        cases hpb : props.lookup "objectB" <;> simp only [hpb] at h ⊢
        case none => simp at h
        case some =>
          cases hbo : env.blenderOk <;> simp [hbo] at h ⊢
          cases hvp : env.videoPresent <;> simp [hvp] at h ⊢
          simp only [heA, heB]
          decide

/-- The possible progress-percent sequences of a `generate_collision`
call, stopping at the first failure. -/
def pcCases : List (List Int) :=
  [[], [55], [55, 65], [55, 65, 60], [55, 65, 60, 75], [55, 65, 60, 75, 90],
   [55, 65, 60, 75, 90, 100]]

theorem generateCollision_percent_cases (env : GenEnv) (dir : String)
    (fA fB : EntityFiles) (props : List (String × ObjectProperties)) :
    (generateCollision env dir fA fB props).events.map (fun e => e.percent) ∈
      pcCases := by
  simp only [generateCollision]
  cases hA : (processEntity env dir 0 .objectA fA).result with
  | error e =>
    have hm : (processEntity env dir 0 .objectA fA).events.map (fun e => e.percent) = [] ∨
        (processEntity env dir 0 .objectA fA).events.map (fun e => e.percent) = [55 + 0 * 5] ∨
        (processEntity env dir 0 .objectA fA).events.map (fun e => e.percent) =
          [55 + 0 * 5, 65 + 0 * 10] := by
      simpa using processEntity_percent_cases env dir 0 .objectA fA
    rcases hm with hm | hm | hm <;> simp [hA, hm, pcCases]
  | ok mpA =>
    obtain ⟨heA, -⟩ := processEntity_ok_shape env dir 0 .objectA fA mpA hA
    simp only [hA, heA]
    cases hB : (processEntity env dir 1 .objectB fB).result with
    | error e =>
      have hm : (processEntity env dir 1 .objectB fB).events.map (fun e => e.percent) = [] ∨
          (processEntity env dir 1 .objectB fB).events.map (fun e => e.percent) = [55 + 1 * 5] ∨
          (processEntity env dir 1 .objectB fB).events.map (fun e => e.percent) =
            [55 + 1 * 5, 65 + 1 * 10] := by
        simpa using processEntity_percent_cases env dir 1 .objectB fB
      rcases hm with hm | hm | hm <;> simp [hB, hm, pcCases]
    | ok mpB =>
      obtain ⟨heB, -⟩ := processEntity_ok_shape env dir 1 .objectB fB mpB hB
      simp only [hB, heB]
      cases hpa : props.lookup "objectA" <;>
        cases hpb : props.lookup "objectB" <;>
          cases hbo : env.blenderOk <;>
            cases hvp : env.videoPresent <;>
              simp [hpa, hpb, hbo, hvp, pcCases]

/-- The possible progress-write sequences of one background run. -/
def pwCases : List (List Int) :=
  [[], [55], [55, 65], [55, 65, 60], [55, 65, 60, 75], [55, 65, 60, 75, 90],
   [55, 65, 60, 75, 90, 100], [55, 65, 60, 75, 90, 100, 100]]

theorem bgRun_progress_cases (env : GenEnv) (j : Job) :
    (bgRun env j).progressWrites ∈ pwCases := by
  simp only [bgRun]
  cases hbp : buildProps j.properties with
  | error e => simp [pwCases]
  | ok props =>
    cases hlen : props.length == 2 with
    | false => simp [hlen, pwCases]
    | true =>
      simp only [hlen, Bool.true_eq, if_true]
      cases hres : (generateCollision env j.dir j.filesA j.filesB props).result with
      | ok vp =>
        have he := generateCollision_ok_events env j.dir j.filesA j.filesB props vp hres
        simp [hres, he, fullRunEvents, pwCases]
      | error e =>
        have hm := generateCollision_percent_cases env j.dir j.filesA j.filesB props
        simp only [pcCases, List.mem_cons, List.not_mem_nil, or_false] at hm
        cases e with
        | pipelineError m =>
          rcases hm with hm | hm | hm | hm | hm | hm | hm <;> simp [hres, hm, pwCases]
        | otherError m =>
          rcases hm with hm | hm | hm | hm | hm | hm | hm <;> simp [hres, hm, pwCases]

/-- The analysis result dict for a bag round-trips through the
`ObjectProperties` keyword constructor. -/
theorem mkProps_varsDict (p : ObjectProperties) : mkProps (varsDict p) = .ok p := by
  cases p; rfl

theorem truthy_varsDict (p : ObjectProperties) : truthy (varsDict p) = true := rfl

/-- Building props from a freshly analyzed properties map recovers the
two bags. -/
theorem buildProps_pair (a b : ObjectProperties) :
    buildProps [("objectA", varsDict a), ("objectB", varsDict b)] =
      .ok [("objectA", a), ("objectB", b)] := by
  simp [buildProps, truthy_varsDict, mkProps_varsDict]

theorem exceptOk_ok {ε α : Type} (e : Except ε α) (h : exceptOk e = true) :
    ∃ a, e = .ok a := by
  cases e with
  | ok a => exact ⟨a, rfl⟩
  | error e => simp [exceptOk] at h

/-! ### Claim C1 -/

/-- Claim C1 is violated: in a fully successful run the orchestrator
writes progress 10, 50, 55, 65, 60, 75, 90, 100, 100.  The callback
write of 60 (cleaning entity B) follows the write of 65 (entity A's mesh
step), so while the job is in the non-error status "generating" the
progress value decreases from 65 to 60; the generation-phase percentages
are not a non-decreasing sequence. -/
theorem progress_decreases_in_success_run :
    flowProgressWrites aenvBothFail fullGenEnv "job-1" "jobs/job-1" "a.png" "b.png" =
      [10, 50, 55, 65, 60, 75, 90, 100, 100] ∧
    chainOk nonDecStep
      (flowProgressWrites aenvBothFail fullGenEnv "job-1" "jobs/job-1" "a.png" "b.png") =
      false ∧
    (bgRun fullGenEnv
      (analyzeRoute aenvBothFail (createJob "job-1" "jobs/job-1" "a.png" "b.png")).job).job.status =
      "complete" := by
  refine ⟨by decide, by decide, by decide⟩

/-- Claim C1 (amended): across every possible run, the orchestrator's
progress writes (job creation, analysis completion, the generation
callbacks, completion) are non-decreasing except for exactly one possible
adjacent drop, from 65 to 60, which occurs when entity B's cleanup
callback follows entity A's mesh-generation callback. -/
theorem C1_progress_monotone_except_mesh_to_clean (aenv : AnalysisEnv)
    (genv : GenEnv) (jid dir pA pB : String) :
    chainOk meshToCleanStep (flowProgressWrites aenv genv jid dir pA pB) = true := by
  unfold flowProgressWrites
  have hb := bgRun_progress_cases genv (analyzeRoute aenv (createJob jid dir pA pB)).job
  simp only [pwCases, List.mem_cons, List.not_mem_nil, or_false] at hb
  cases ho : (analyzeRoute aenv (createJob jid dir pA pB)).outcome <;>
    rcases hb with hb | hb | hb | hb | hb | hb | hb | hb <;>
      simp only [ho, hb] <;> decide

/-! ### Claim C2 -/

/-- Claim C2 is violated: in this background generation task a TypeError
(raised by the `ObjectProperties` keyword constructor on a truthy but
malformed properties entry) is not caught before reaching the executor's
worker — only `PipelineError` is.  The exception escapes the task, the
job is left in status "generating" with no error recorded and the
generation stage still running, not in the terminal error state the claim
requires. -/
theorem background_typeerror_escapes :
    (bgRun fullGenEnv badPropsJob).outcome =
      .escaped "TypeError: keyword arguments do not match ObjectProperties fields" ∧
    (bgRun fullGenEnv badPropsJob).job.status = "generating" ∧
    (bgRun fullGenEnv badPropsJob).job.error = none ∧
    (bgRun fullGenEnv badPropsJob).job.stages.generation.status = "running" := by
  refine ⟨by decide, by decide, by decide, by decide⟩

/-- Claim C2 (amended): the background task catches exactly the
pipeline's own error type.  A `PipelineError` moves the job to the
terminal error state with the message recorded in `job.error`; any other
exception escapes the background function uncaught (the thread-pool
worker survives it, but the job stays in the in-flight "generating"
status and its error field is unchanged). -/
theorem C2_only_pipeline_errors_are_handled (env : GenEnv) (j : Job) :
    (∀ m, (bgRun env j).outcome = .handledError m →
        (bgRun env j).job.status = "error" ∧ (bgRun env j).job.error = some m) ∧
    (∀ m, (bgRun env j).outcome = .escaped m →
        (bgRun env j).job.status = "generating" ∧
        (bgRun env j).job.error = j.error) := by
  simp only [bgRun]
  cases hbp : buildProps j.properties with
  | error e =>
      refine ⟨fun m hm => ?_, fun m hm => ?_⟩ <;> simp_all
  | ok props =>
      cases hlen : props.length == 2 with
      | false =>
          refine ⟨fun m hm => ?_, fun m hm => ?_⟩ <;> simp_all
      | true =>
          cases hres : (generateCollision env j.dir j.filesA j.filesB props).result with
          | ok vp =>
              refine ⟨fun m hm => ?_, fun m hm => ?_⟩ <;> simp_all
          | error e =>
              cases e with
              | pipelineError m2 =>
                  refine ⟨fun m hm => ?_, fun m hm => ?_⟩ <;> simp_all
              | otherError m2 =>
                  refine ⟨fun m hm => ?_, fun m hm => ?_⟩ <;>
                    simp_all [foldl_applyEvent_status, foldl_applyEvent_error]

/-- Witness for the amended C2 at a concrete input: the escaping
TypeError leaves the job generating with its error field unchanged. -/
theorem C2_only_pipeline_errors_are_handled_witness :
    (bgRun fullGenEnv badPropsJob).job.status = "generating" ∧
    (bgRun fullGenEnv badPropsJob).job.error = badPropsJob.error :=
  (C2_only_pipeline_errors_are_handled fullGenEnv badPropsJob).2
    "TypeError: keyword arguments do not match ObjectProperties fields" (by decide)

/-! ### Claim C3 -/

/-- Claim C3 is violated: with objectB's input image missing but
objectA's analyzer response parsed as the JSON object with mass "heavy",
the analysis run raises a ValueError (from `float()` inside `from_raw`)
while processing objectA, before objectB's missing image is ever checked.
So an entity's input image is missing, yet no fatal pipeline error is
raised — the run fails with a non-pipeline exception that escapes the
route handler, leaving the job stuck in status "analyzing". -/
theorem analysis_valueerror_preempts_missing_image :
    aenvBadMass.fsExists "b.png" = false ∧
    analyzeObjects aenvBadMass "a.png" "b.png" =
      .error (.otherError "ValueError: could not convert value to float") ∧
    (analyzeRoute aenvBadMass baseJob).outcome =
      .escaped "ValueError: could not convert value to float" ∧
    (analyzeRoute aenvBadMass baseJob).job.status = "analyzing" := by
  refine ⟨by decide, by decide, by decide, by decide⟩

/-- Claim C3 (amended): provided every parsed analyzer response coerces
cleanly through `from_raw` (its numeric fields, when present, accept
`float()`), the analysis raises a fatal `PipelineError` exactly when an
entity's input image file is missing; and whenever both images exist and
both analyzer calls fail inside the guarded request/parse block (any
exception, timeout or JSON-unparsable response), each entity receives
exactly the default bag {mass 1.0, bounciness 0.5, friction 0.5, facing
"front"} and the job reaches status "analysis_complete" with no error
recorded.  (A parsed response with a non-coercible field instead escapes
as a non-pipeline error, per the counterexample.) -/
theorem C3_analysis_fatal_iff_missing_image (env : AnalysisEnv) (j : Job)
    (hA : exceptOk (ObjectProperties.from_raw (getPhysicsGeminiRest env.outA)) = true)
    (hB : exceptOk (ObjectProperties.from_raw (getPhysicsGeminiRest env.outB)) = true) :
    ((∃ m, analyzeObjects env j.filesA.original j.filesB.original =
        .error (.pipelineError m)) ↔
      (env.fsExists j.filesA.original = false ∨
       env.fsExists j.filesB.original = false)) ∧
    (∀ mA mB, env.outA = .failure mA → env.outB = .failure mB →
      env.fsExists j.filesA.original = true →
      env.fsExists j.filesB.original = true →
      j.error = none →
      (analyzeRoute env j).job.status = "analysis_complete" ∧
      (analyzeRoute env j).job.error = none ∧
      (analyzeRoute env j).job.properties =
        [("objectA", varsDict defaultBag), ("objectB", varsDict defaultBag)]) := by
  obtain ⟨pa, hpa⟩ := exceptOk_ok _ hA
  obtain ⟨pb, hpb⟩ := exceptOk_ok _ hB
  cases hfa : env.fsExists j.filesA.original with
  | false =>
      refine ⟨?_, fun mA mB h1 h2 h3 h4 h5 => by simp at h3⟩
      simp [analyzeObjects, analyzeOne, hfa]
  | true =>
      cases hfb : env.fsExists j.filesB.original with
      | false =>
          refine ⟨?_, fun mA mB h1 h2 h3 h4 h5 => by simp at h4⟩
          simp [analyzeObjects, analyzeOne, hfa, hfb, hpa]
      | true =>
          refine ⟨by simp [analyzeObjects, analyzeOne, hfa, hfb, hpa, hpb], ?_⟩
          intro mA mB h1 h2 h3 h4 h5
          have hda : ObjectProperties.from_raw (getPhysicsGeminiRest env.outA) =
              .ok defaultBag := by rw [h1]; rfl
          have hdb : ObjectProperties.from_raw (getPhysicsGeminiRest env.outB) =
              .ok defaultBag := by rw [h2]; rfl
          have hobj : analyzeObjects env j.filesA.original j.filesB.original =
              .ok (defaultBag, defaultBag) := by
            simp [analyzeObjects, analyzeOne, hfa, hfb, hda, hdb]
          simp [analyzeRoute, hobj, h5]

/-- Witness for the amended C3 at a concrete input: with both images
present and both Gemini calls failing, the job reaches analysis_complete
with the two default bags and no error. -/
theorem C3_analysis_fatal_iff_missing_image_witness :
    (analyzeRoute aenvBothFail baseJob).job.status = "analysis_complete" ∧
    (analyzeRoute aenvBothFail baseJob).job.error = none ∧
    (analyzeRoute aenvBothFail baseJob).job.properties =
      [("objectA", varsDict defaultBag), ("objectB", varsDict defaultBag)] :=
  (C3_analysis_fatal_iff_missing_image aenvBothFail baseJob (by decide) (by decide)).2
    "timeout" "timeout" rfl rfl rfl rfl rfl

/-! ### Claim C4 -/

/-- Claim C4 is violated: this job's properties mapping has fewer than
two populated property bags (objectB is null, and objectA's only entry is
a single mass key), yet the generation task does not end in status
"error" with the generation stage failed — the malformed truthy entry
raises a TypeError before the missing-properties check, the exception
escapes, and the job stays generating with no error.  (No external tool
is invoked, which is the one part of the claim that does hold here.) -/
theorem generation_underfilled_props_escape :
    truthy (.scalar .null) = false ∧
    (bgRun fullGenEnv halfBadJob).job.status = "generating" ∧
    (bgRun fullGenEnv halfBadJob).job.error = none ∧
    (bgRun fullGenEnv halfBadJob).job.stages.generation.status = "running" ∧
    (bgRun fullGenEnv halfBadJob).tools = [] := by
  refine ⟨by decide, by decide, by decide, by decide, by decide⟩

/-- Claim C4 (amended): when every populated (truthy) properties entry is
a dict with exactly the four property-bag keys and fewer than two entries
are populated, the generation task fails fast as claimed: the job ends in
status "error" with both the generation and render stages failed carrying
the missing-properties message, and no external cleanup, mesh-generation
or render tool is invoked.  (A populated entry that is not such a dict
instead escapes as an uncaught TypeError, per the counterexample.) -/
theorem C4_too_few_property_bags_fail_fast (env : GenEnv) (j : Job)
    (l : List (String × ObjectProperties))
    (h : buildProps j.properties = .ok l) (hlen : l.length < 2) :
    (bgRun env j).job.status = "error" ∧
    (bgRun env j).job.error =
      some "Physics properties missing for one or both objects." ∧
    (bgRun env j).job.stages.generation =
      stage "failed" (some "Physics properties missing for one or both objects.") ∧
    (bgRun env j).job.stages.render =
      stage "failed" (some "Physics properties missing for one or both objects.") ∧
    (bgRun env j).tools = [] := by
  have hne : (l.length == 2) = false := by
    simp only [beq_eq_false_iff_ne]
    omega
  simp [bgRun, h, hne, stage]

/-- Witness for the amended C4 at a concrete input: one populated valid
bag out of two ends the run in the terminal error state without invoking
any tool. -/
theorem C4_too_few_property_bags_fail_fast_witness :
    (bgRun fullGenEnv oneBagJob).job.status = "error" ∧
    (bgRun fullGenEnv oneBagJob).job.error =
      some "Physics properties missing for one or both objects." ∧
    (bgRun fullGenEnv oneBagJob).job.stages.generation =
      stage "failed" (some "Physics properties missing for one or both objects.") ∧
    (bgRun fullGenEnv oneBagJob).job.stages.render =
      stage "failed" (some "Physics properties missing for one or both objects.") ∧
    (bgRun fullGenEnv oneBagJob).tools = [] :=
  C4_too_few_property_bags_fail_fast fullGenEnv oneBagJob
    [("objectA", defaultBag)] (by decide) (by decide)

/-! ### Claim C5 -/

/-- Claim C5 is violated: a job in the terminal status "complete" is not
left untouched by subsequent operations — running analysis again moves it
through "analyzing" to "analysis_complete", and the generate route
happily schedules a new background task for it (only
generating/rendering are guarded). -/
theorem terminal_job_mutated_by_later_calls :
    completeJob.status = "complete" ∧
    (analyzeRoute aenvBothFail completeJob).job.status = "analysis_complete" ∧
    (analyzeRoute aenvBothFail completeJob).stageLog =
      [("analysis", "running"), ("analysis", "completed")] ∧
    (generateRoute completeJob).scheduled = true := by
  refine ⟨by decide, by decide, by decide, by decide⟩

/-- Claim C5 (amended): terminal statuses are not guarded.  The
orchestrator itself never spontaneously leaves "complete" or "error", but
client-triggered operations do mutate terminal jobs: running analysis on
a complete job always changes its status (to analyzing, then
analysis_complete or error), and the generate route schedules a fresh
background task for it, since its guard covers only the in-flight
generating/rendering statuses. -/
theorem C5_complete_status_not_terminal (env : AnalysisEnv) (j : Job)
    (h : j.status = "complete") :
    (analyzeRoute env j).job.status ≠ "complete" ∧
    (generateRoute j).scheduled = true := by
  constructor
  · simp only [analyzeRoute]
    cases hr : analyzeObjects env j.filesA.original j.filesB.original with
    | ok ab => cases ab; simp
    | error e => cases e <;> simp
  · simp [generateRoute, h]

/-- Witness for the amended C5 at a concrete input. -/
theorem C5_complete_status_not_terminal_witness :
    (analyzeRoute aenvBothFail completeJob).job.status ≠ "complete" ∧
    (generateRoute completeJob).scheduled = true :=
  C5_complete_status_not_terminal aenvBothFail completeJob rfl

/-! ### Claim C6 -/

/-- Claim C6: a generate call on a job whose status is already the
in-flight "generating" state is a no-op: it returns the job's current
serialized state, schedules no background task, and a repeated call
returns the identical response — so two quick successive generate calls
on a generating job add no executions beyond the one already in flight. -/
theorem C6_generate_idempotent_while_generating (j : Job)
    (h : j.status = "generating") :
    generateRoute j = ⟨j, serializeJob j, none, false⟩ ∧
    generateRoute (generateRoute j).job = generateRoute j := by
  have h1 : generateRoute j = ⟨j, serializeJob j, none, false⟩ := by
    simp [generateRoute, h]
  refine ⟨h1, ?_⟩
  rw [h1]
  exact h1

/-- Witness for C6 at a concrete input. -/
theorem C6_generate_idempotent_while_generating_witness :
    generateRoute generatingJob =
      ⟨generatingJob, serializeJob generatingJob, none, false⟩ ∧
    generateRoute (generateRoute generatingJob).job = generateRoute generatingJob :=
  C6_generate_idempotent_while_generating generatingJob rfl

/-! ### Claim C7 -/

/-- When a run reaches a mesh-generation call whose tool succeeds but
whose fixed-path artifact is absent, `generate_collision` fails with the
mesh-not-found pipeline error. -/
theorem generateCollision_mesh_absent (env : GenEnv) (dir : String)
    (fA fB : EntityFiles) (props : List (String × ObjectProperties))
    (hcase :
      (env.fsExists fA.original = true ∧ env.cleanOk .objectA = true ∧
       env.meshProcOk .objectA = true ∧ env.meshArtifact .objectA = false) ∨
      (env.fsExists fA.original = true ∧ env.cleanOk .objectA = true ∧
       env.meshProcOk .objectA = true ∧ env.meshArtifact .objectA = true ∧
       env.fsExists fB.original = true ∧ env.cleanOk .objectB = true ∧
       env.meshProcOk .objectB = true ∧ env.meshArtifact .objectB = false)) :
    ∃ p, (generateCollision env dir fA fB props).result =
      .error (.pipelineError ("Mesh not found at " ++ p)) := by
  rcases hcase with ⟨h1, h2, h3, h4⟩ | ⟨h1, h2, h3, h4, h5, h6, h7, h8⟩
  · refine ⟨dir ++ "/" ++ "objectA" ++ "/mesh/0/mesh.obj", ?_⟩
    simp [generateCollision, processEntity, h1, h2, h3, h4, keyName]
  · refine ⟨dir ++ "/" ++ "objectB" ++ "/mesh/0/mesh.obj", ?_⟩
    simp [generateCollision, processEntity, h1, h2, h3, h4, h5, h6, h7, h8, keyName]

/-- Claim C7: whenever a generation run (on a job with two well-formed
property bags and a still-null video path) reaches a mesh-generation call
whose external tool reports success but whose expected artifact is absent
at the fixed per-entity path, the run is fatal: the job ends in status
"error", both the generation and render stages are failed with the
mesh-not-found message, and the job's video path remains null. -/
theorem C7_mesh_artifact_absent_is_fatal (env : GenEnv) (j : Job)
    (l : List (String × ObjectProperties))
    (hprops : buildProps j.properties = .ok l) (hlen : l.length = 2)
    (hvid : j.video_path = none)
    (hcase :
      (env.fsExists j.filesA.original = true ∧ env.cleanOk .objectA = true ∧
       env.meshProcOk .objectA = true ∧ env.meshArtifact .objectA = false) ∨
      (env.fsExists j.filesA.original = true ∧ env.cleanOk .objectA = true ∧
       env.meshProcOk .objectA = true ∧ env.meshArtifact .objectA = true ∧
       env.fsExists j.filesB.original = true ∧ env.cleanOk .objectB = true ∧
       env.meshProcOk .objectB = true ∧ env.meshArtifact .objectB = false)) :
    ∃ m, (∃ p, m = "Mesh not found at " ++ p) ∧
      (bgRun env j).job.status = "error" ∧
      (bgRun env j).job.error = some m ∧
      (bgRun env j).job.stages.generation = stage "failed" (some m) ∧
      (bgRun env j).job.stages.render = stage "failed" (some m) ∧
      (bgRun env j).job.video_path = none := by
  have hbeq : (l.length == 2) = true := by simp [hlen]
  obtain ⟨p, hres⟩ := generateCollision_mesh_absent env j.dir j.filesA j.filesB l hcase
  refine ⟨"Mesh not found at " ++ p, ⟨p, rfl⟩, ?_, ?_, ?_, ?_, ?_⟩ <;>
    simp [bgRun, hprops, hbeq, hres, stage, foldl_applyEvent_video, hvid]

/-- Witness for C7 at a concrete input: the analyzed job run against an
environment whose mesh tool succeeds without leaving the objectA
artifact. -/
theorem C7_mesh_artifact_absent_is_fatal_witness :
    ∃ m, (∃ p, m = "Mesh not found at " ++ p) ∧
      (bgRun meshAbsentEnv analyzedJob).job.status = "error" ∧
      (bgRun meshAbsentEnv analyzedJob).job.error = some m ∧
      (bgRun meshAbsentEnv analyzedJob).job.stages.generation = stage "failed" (some m) ∧
      (bgRun meshAbsentEnv analyzedJob).job.stages.render = stage "failed" (some m) ∧
      (bgRun meshAbsentEnv analyzedJob).job.video_path = none :=
  C7_mesh_artifact_absent_is_fatal meshAbsentEnv analyzedJob
    [("objectA", defaultBag), ("objectB", defaultBag)]
    (by decide) (by decide) rfl (Or.inl ⟨rfl, rfl, rfl, rfl⟩)

/-! ### Claim C8 -/

/-- Every background run writes generation=running before any terminal
write to the generation stage. -/
theorem bgRun_generation_running_first (env : GenEnv) (j : Job) :
    runningFirst (stageStatusLog (bgRun env j).stageLog "generation") = true := by
  simp only [bgRun]
  cases hbp : buildProps j.properties with
  | error e => rfl
  | ok props =>
      cases hlen : props.length == 2 with
      | false => simp [hlen, stageStatusLog, runningFirst]
      | true =>
          simp only [hlen, Bool.true_eq, if_true]
          cases hres : (generateCollision env j.dir j.filesA j.filesB props).result with
          | ok vp => simp [hres, stageStatusLog, runningFirst]
          | error e => cases e <;> simp [hres, stageStatusLog, runningFirst]

/-- On a completed background run the render stage is set running (by the
two render callbacks) before its completed write. -/
theorem bgRun_completed_render_running_first (env : GenEnv) (j : Job)
    (h : (bgRun env j).outcome = .completed) :
    runningFirst (stageStatusLog (bgRun env j).stageLog "render") = true := by
  simp only [bgRun] at h ⊢
  cases hbp : buildProps j.properties with
  | error e => simp only [hbp] at h; simp at h
  | ok props =>
      simp only [hbp] at h ⊢
      cases hlen : props.length == 2 with
      | false => simp [hlen] at h
      | true =>
          simp only [hlen, Bool.true_eq, if_true] at h ⊢
          cases hres : (generateCollision env j.dir j.filesA j.filesB props).result with
          | error e => simp only [hres] at h; cases e <;> simp at h
          | ok vp =>
              have he := generateCollision_ok_events env j.dir j.filesA j.filesB props vp hres
              simp [hres, he, fullRunEvents, stageStatusLog, runningFirst]

/-- Claim C8 is violated: in a run whose mesh artifact is absent the
render stage is written pending and then failed, with no intervening
running write — the stage is set to a terminal status straight from
pending. -/
theorem render_stage_failed_straight_from_pending :
    stageStatusLog (bgRun meshAbsentEnv analyzedJob).stageLog "render" =
      ["pending", "failed"] ∧
    runningFirst
      (stageStatusLog (bgRun meshAbsentEnv analyzedJob).stageLog "render") = false := by
  refine ⟨by decide, by decide⟩

/-- Claim C8 (amended): within one run, the generation stage (in the
background task) and the analysis stage (in the analyze operation) are
always set to running before any terminal completed/failed write, and the
render stage is set to running before completed on every successful run;
but when the generation phase fails before rendering begins, the render
stage is set to failed directly from pending, skipping running. -/
theorem C8_stages_run_before_terminal (env : GenEnv) (aenv : AnalysisEnv)
    (j : Job) :
    runningFirst (stageStatusLog (bgRun env j).stageLog "generation") = true ∧
    runningFirst (stageStatusLog (analyzeRoute aenv j).stageLog "analysis") = true ∧
    ((bgRun env j).outcome = .completed →
      runningFirst (stageStatusLog (bgRun env j).stageLog "render") = true) := by
  refine ⟨bgRun_generation_running_first env j, ?_,
    fun hc => bgRun_completed_render_running_first env j hc⟩
  simp only [analyzeRoute]
  cases hr : analyzeObjects aenv j.filesA.original j.filesB.original with
  | ok ab => cases ab; simp [hr, stageStatusLog, runningFirst]
  | error e => cases e <;> simp [hr, stageStatusLog, runningFirst]

/-- Witness for the amended C8 at a concrete input: on the fully
successful run the render stage sees running before completed. -/
theorem C8_stages_run_before_terminal_witness :
    runningFirst
      (stageStatusLog (bgRun fullGenEnv analyzedJob).stageLog "render") = true :=
  (C8_stages_run_before_terminal fullGenEnv aenvBothFail analyzedJob).2.2 (by decide)

/-! ### Claim C9 -/

/-- Executor invariant: under the app's worker bound of one, at most one
task is in the running set, and the ids in finished order, then running,
then queued, are exactly 0, 1, 2, ... in submission order — so tasks
start (and finish) in strict FIFO submission order. -/
theorem execInvariant (s : ExecState)
    (h : ExecReach appMaxWorkers execInit s) :
    s.running.length ≤ 1 ∧
    s.finished ++ s.running ++ s.queue = List.range s.nextId := by
  induction h with
  | refl => simp [execInit]
  | tail hr step ih =>
      obtain ⟨ih1, ih2⟩ := ih
      cases step with
      | submit =>
          refine ⟨ih1, ?_⟩
          rw [List.range_succ, ← ih2]
          simp [List.append_assoc]
      | taskStart t rest hlt hq =>
          simp only [appMaxWorkers, Nat.lt_one_iff] at hlt
          have hr0 := List.eq_nil_of_length_eq_zero hlt
          rw [hr0, hq] at ih2
          refine ⟨by simp [hr0], ?_⟩
          simpa [hr0, List.append_assoc] using ih2
      | taskFinish t r1 r2 hrun =>
          rw [hrun] at ih1 ih2
          have hlen : r1.length + (r2.length + 1) ≤ 1 := by simpa using ih1
          have hr1 : r1 = [] := List.eq_nil_of_length_eq_zero (by omega)
          have hr2 : r2 = [] := List.eq_nil_of_length_eq_zero (by omega)
          subst hr1
          subst hr2
          refine ⟨by simp, ?_⟩
          simpa [List.append_assoc] using ih2

/-- Any state can finish all of its currently running tasks. -/
theorem execDrainRunning (mw : ℕ) (n : ℕ) (q r f : List ℕ) :
    ExecReach mw ⟨n, q, r, f⟩ ⟨n, q, [], f ++ r⟩ := by
  induction r generalizing f with
  | nil => simpa using Relation.ReflTransGen.refl
  | cons t rest ih =>
      have step : ExecStep mw ⟨n, q, t :: rest, f⟩ ⟨n, q, rest, f ++ [t]⟩ :=
        ExecStep.taskFinish ⟨n, q, t :: rest, f⟩ t [] rest rfl
      refine Relation.ReflTransGen.head step ?_
      simpa [List.append_assoc] using ih (f ++ [t])

/-- With a positive worker bound, an idle executor can run its whole
queue to completion, in queue order. -/
theorem execDrainQueue (mw : ℕ) (hmw : 0 < mw) (n : ℕ) (q : List ℕ) :
    ∀ f : List ℕ, ExecReach mw ⟨n, q, [], f⟩ ⟨n, [], [], f ++ q⟩ := by
  induction q with
  | nil => intro f; simpa using Relation.ReflTransGen.refl
  | cons t rest ih =>
      intro f
      have s1 : ExecStep mw ⟨n, t :: rest, [], f⟩ ⟨n, rest, [] ++ [t], f⟩ :=
        ExecStep.taskStart ⟨n, t :: rest, [], f⟩ t rest (by simpa using hmw) rfl
      have s2 : ExecStep mw ⟨n, rest, [t], f⟩ ⟨n, rest, [], f ++ [t]⟩ :=
        ExecStep.taskFinish ⟨n, rest, [t], f⟩ t [] [] rfl
      refine Relation.ReflTransGen.head s1 (Relation.ReflTransGen.head s2 ?_)
      simpa [List.append_assoc] using ih (f ++ [t])

/-- Claim C9: with the app's `max_workers=1` executor, every reachable
executor state has at most one task executing; the finished, running and
queued task ids always read 0, 1, 2, ... in submission order (strict
FIFO); and from any reachable state the executor can run every submitted
task to completion, ending with the finished list equal to the full
submission order. -/
theorem C9_single_worker_fifo_executor (s : ExecState)
    (h : ExecReach appMaxWorkers execInit s) :
    s.running.length ≤ 1 ∧
    s.finished ++ s.running ++ s.queue = List.range s.nextId ∧
    ExecReach appMaxWorkers s ⟨s.nextId, [], [], List.range s.nextId⟩ := by
  obtain ⟨h1, h2⟩ := execInvariant s h
  refine ⟨h1, h2, ?_⟩
  obtain ⟨n, q, r, f⟩ := s
  have d1 := execDrainRunning appMaxWorkers n q r f
  have d2 := execDrainQueue appMaxWorkers (by decide) n q (f ++ r)
  have d := Relation.ReflTransGen.trans d1 d2
  simpa [← h2, List.append_assoc] using d

/-- Witness for C9 at a concrete reachable state: one task submitted,
nothing started yet. -/
theorem C9_single_worker_fifo_executor_witness :
    (⟨1, [0], [], []⟩ : ExecState).running.length ≤ 1 ∧
    (⟨1, [0], [], []⟩ : ExecState).finished ++
      (⟨1, [0], [], []⟩ : ExecState).running ++
      (⟨1, [0], [], []⟩ : ExecState).queue = List.range 1 ∧
    ExecReach appMaxWorkers ⟨1, [0], [], []⟩ ⟨1, [], [], List.range 1⟩ :=
  C9_single_worker_fifo_executor ⟨1, [0], [], []⟩
    (Relation.ReflTransGen.single (ExecStep.submit execInit))

/-! ### Claim C10 -/

/-- A job whose properties were hand-edited through the properties
endpoint. -/
def editedJob : Job :=
  updateProperties baseJob
    [("objectA", .obj [("mass", .num ⟨3, 0⟩), ("bounciness", .num pyHalf),
                       ("friction", .num pyHalf), ("facing", .str "left")])]

/-- Claim C10: a successful analysis replaces the job's entire properties
mapping wholesale with the freshly analyzed bags for both entities
(discarding whatever was there, including prior edits), while the job's
file records, video path, and the upload, generation and render stage
entries keep their previous values. -/
theorem C10_analysis_replaces_properties_wholesale (env : AnalysisEnv)
    (j : Job) (a b : ObjectProperties)
    (h : analyzeObjects env j.filesA.original j.filesB.original = .ok (a, b)) :
    (analyzeRoute env j).job.properties =
      [("objectA", varsDict a), ("objectB", varsDict b)] ∧
    (analyzeRoute env j).job.filesA = j.filesA ∧
    (analyzeRoute env j).job.filesB = j.filesB ∧
    (analyzeRoute env j).job.video_path = j.video_path ∧
    (analyzeRoute env j).job.stages.upload = j.stages.upload ∧
    (analyzeRoute env j).job.stages.generation = j.stages.generation ∧
    (analyzeRoute env j).job.stages.render = j.stages.render := by
  simp [analyzeRoute, h]

/-- Witness for C10 at a concrete input: analysis discards the edited
mass-3.0 bag and stores the two freshly analyzed default bags, leaving
files, video path and the other stages untouched. -/
theorem C10_analysis_replaces_properties_wholesale_witness :
    (analyzeRoute aenvBothFail editedJob).job.properties =
      [("objectA", varsDict defaultBag), ("objectB", varsDict defaultBag)] ∧
    (analyzeRoute aenvBothFail editedJob).job.filesA = editedJob.filesA ∧
    (analyzeRoute aenvBothFail editedJob).job.filesB = editedJob.filesB ∧
    (analyzeRoute aenvBothFail editedJob).job.video_path = editedJob.video_path ∧
    (analyzeRoute aenvBothFail editedJob).job.stages.upload = editedJob.stages.upload ∧
    (analyzeRoute aenvBothFail editedJob).job.stages.generation =
      editedJob.stages.generation ∧
    (analyzeRoute aenvBothFail editedJob).job.stages.render =
      editedJob.stages.render :=
  C10_analysis_replaces_properties_wholesale aenvBothFail editedJob
    defaultBag defaultBag (by decide)

end PhysicsApp
